import Mathlib

/-!
Verification of the fazri-analyzer alerts frontend against its
natural-language specification.

The definitions below are a shallow embedding of the TypeScript sources:
  - `src/types/alert.ts` (alert/staff type declarations)
  - `src/lib/api-client.ts` (request construction, `handleResponse`)
  - `src/components/alerts/resolve-alert-dialog.tsx`
  - `src/components/alerts/escalate-alert-dialog.tsx`
  - `src/components/alerts/alert-actions.tsx`
  - `src/components/alerts/alert-notification-listener.tsx`
  - `src/hooks/useAlerts.ts`
  - `src/app/dashboard/alerts/page.tsx` and `.../[alertId]/page.tsx`
Effectful fragments (fetch calls, React state updates) are embedded as pure
state-transition functions; a handler that may or may not issue an HTTP
request returns an `Option ApiRequest`.
-/

namespace Fazri

/-! ## Data model (from `src/types/alert.ts`) -/

/-- The `AlertSeverity` union type. -/
inductive AlertSeverity where
  | low
  | medium
  | high
  | critical
  deriving DecidableEq, Repr

/-- The `AlertStatus` union type. -/
inductive AlertStatus where
  | created
  | assigned
  | acknowledged
  | investigating
  | resolved
  | escalated
  deriving DecidableEq, Repr

/-- The `ResolutionType` union type (all four members as declared). -/
inductive ResolutionType where
  | false_alarm
  | resolved
  | escalated
  | no_action_required
  deriving DecidableEq, Repr

/-- The backend wire string of each `ResolutionType` member. -/
def resolutionTypeValue : ResolutionType → String
  | ResolutionType.false_alarm => "false_alarm"
  | ResolutionType.resolved => "resolved"
  | ResolutionType.escalated => "escalated"
  | ResolutionType.no_action_required => "no_action_required"

/-- The `Alert` interface, restricted to the fields the embedded operations
read (`id`, `title`, `description`, `severity`, `status`,
`escalation_count`); the remaining metadata fields are never consulted by
the code under verification. -/
structure Alert where
  id : String
  title : String
  description : String
  severity : AlertSeverity
  status : AlertStatus
  escalation_count : Nat
  deriving DecidableEq, Repr

/-- The `AlertsResponse` interface. -/
structure AlertsResponse where
  total : Nat
  alerts : List Alert
  page : Nat
  page_size : Nat
  deriving DecidableEq, Repr

/-- JavaScript `String.prototype.trim()`: strips leading and trailing
whitespace. Embedded as a structural recursion over the character list so
that it evaluates inside proofs. -/
def jsTrim (s : String) : String :=
  String.mk
    (((s.data.dropWhile Char.isWhitespace).reverse.dropWhile
        Char.isWhitespace).reverse)

/-! ## HTTP requests issued by `src/lib/api-client.ts`

A request is embedded as its method, path, query parameters (in append
order, as built through `URLSearchParams`) and JSON body fields. -/

structure ApiRequest where
  method : String
  path : String
  query : List (String × String)
  body : List (String × String)
  deriving DecidableEq, Repr

/-- Embedding of `apiClient.acknowledgeAlert`: POST with `staff_id` as query parameter. -/
def acknowledgeAlert (alertId staffId : String) : ApiRequest :=
  { method := "POST"
    path := "/api/v1/alerts/" ++ alertId ++ "/acknowledge"
    query := [("staff_id", staffId)]
    body := [] }

/-- Embedding of `apiClient.resolveAlert`: POST with `staff_id` as query parameter and the
resolution data as JSON body. -/
def resolveAlert (alertId staff_id resolution_type resolution_notes : String) :
    ApiRequest :=
  { method := "POST"
    path := "/api/v1/alerts/" ++ alertId ++ "/resolve"
    query := [("staff_id", staff_id)]
    body := [("resolution_type", resolution_type),
             ("resolution_notes", resolution_notes)] }

/-- Embedding of `apiClient.escalateAlert`: POST with `escalate_to` and `reason` as query
parameters and no body. -/
def escalateAlert (alertId escalate_to reason : String) : ApiRequest :=
  { method := "POST"
    path := "/api/v1/alerts/" ++ alertId ++ "/escalate"
    query := [("escalate_to", escalate_to), ("reason", reason)]
    body := [] }

/-! ## ResolveAlertDialog (`resolve-alert-dialog.tsx`) -/

/-- The `RESOLUTION_TYPES` constant: the resolution types the dialog offers,
paired with their display labels, in declaration order. -/
def RESOLUTION_TYPES : List (ResolutionType × String) :=
  [(ResolutionType.resolved, "Resolved"),
   (ResolutionType.false_alarm, "False Alarm"),
   (ResolutionType.no_action_required, "No Action Required")]

/-- The dialog's initial `resolutionType` state: `useState('resolved')`. -/
def defaultResolutionType : ResolutionType := ResolutionType.resolved

/-- Embedding of `ResolveAlertDialog.handleResolve`: when `notes.trim()` is empty it shows
an error toast and returns without calling the API (`none`); otherwise it
issues `apiClient.resolveAlert` with the selected type and the notes. -/
def handleResolve (alertId staffId : String) (resolutionType : ResolutionType)
    (notes : String) : Option ApiRequest :=
  if jsTrim notes = "" then none
  else some (resolveAlert alertId staffId (resolutionTypeValue resolutionType) notes)

/-- The Resolve button's `disabled` prop: disabled while a request is in
flight or while the notes field is blank after trimming. -/
def resolveButtonDisabled (loading : Bool) (notes : String) : Bool :=
  loading || jsTrim notes == ""

/-! ## EscalateAlertDialog (`escalate-alert-dialog.tsx`) -/

/-- Embedding of `EscalateAlertDialog.handleEscalate`: returns without an API call when no
supervisor is selected or the reason is blank after trimming; otherwise
issues `apiClient.escalateAlert` with the selected target and the reason. -/
def handleEscalate (alertId selectedSupervisor reason : String) :
    Option ApiRequest :=
  if selectedSupervisor = "" then none
  else if jsTrim reason = "" then none
  else some (escalateAlert alertId selectedSupervisor reason)

/-- The Escalate button's `disabled` prop. -/
def escalateButtonDisabled (loading : Bool) (selectedSupervisor reason : String) :
    Bool :=
  loading || selectedSupervisor == "" || jsTrim reason == ""

/-! ## Alert state machine graph (spec §4.1)

The state machine itself lives in the backend service; for the refinement
comparison in claim C1 the valid-edge relation is a second definition that
follows the spec's words: created→assigned, assigned→acknowledged,
assigned→escalated, acknowledged→investigating, acknowledged→escalated,
investigating→resolved, investigating→escalated, escalated→assigned. -/
def specValidEdge : AlertStatus → AlertStatus → Bool
  | AlertStatus.created, AlertStatus.assigned => true
  | AlertStatus.assigned, AlertStatus.acknowledged => true
  | AlertStatus.assigned, AlertStatus.escalated => true
  | AlertStatus.acknowledged, AlertStatus.investigating => true
  | AlertStatus.acknowledged, AlertStatus.escalated => true
  | AlertStatus.investigating, AlertStatus.resolved => true
  | AlertStatus.investigating, AlertStatus.escalated => true
  | AlertStatus.escalated, AlertStatus.assigned => true
  | _, _ => false

/-! ## AlertActions (`alert-actions.tsx`)

The component computes three flags from `alert.status` and renders (in the
non-compact layout) an Acknowledge button when the alert is not yet
acknowledged, a Start Investigation button when it is acknowledged but not
investigating, and Resolve and Escalate buttons unconditionally; when the
status is `resolved` it renders no action at all. Each `offers...` function
is the exact render condition of the corresponding button. -/

/-- The `isAcknowledged` flag:
`['acknowledged', 'investigating', 'resolved'].includes(alert.status)`. -/
def isAcknowledgedStatus (s : AlertStatus) : Bool :=
  [AlertStatus.acknowledged, AlertStatus.investigating,
   AlertStatus.resolved].contains s

/-- The Acknowledge button is rendered iff the component did not early-return
on `resolved` and `!isAcknowledged`. -/
def offersAcknowledge (s : AlertStatus) : Bool :=
  if s = AlertStatus.resolved then false
  else !(isAcknowledgedStatus s)

/-- The Start Investigation button is rendered iff
`isAcknowledged && !isInvestigating` (after the `resolved` early return). -/
def offersStartInvestigation (s : AlertStatus) : Bool :=
  if s = AlertStatus.resolved then false
  else isAcknowledgedStatus s && !(s == AlertStatus.investigating)

/-- The Resolve button is rendered for every non-resolved status. -/
def offersResolve (s : AlertStatus) : Bool :=
  !(s == AlertStatus.resolved)

/-- The Escalate button is rendered for every non-resolved status. -/
def offersEscalate (s : AlertStatus) : Bool :=
  !(s == AlertStatus.resolved)

/-! ## getAlerts query construction (`api-client.ts`, `getAlerts`)

The `status`/`severity` filters may be a single string or an array
(`string | string[]`); the remaining filters are single values. The query
is built by sequential `URLSearchParams.append` calls, each guarded by a
JavaScript truthiness test on the filter value, so an empty string or the
number 0 is skipped. -/

/-- A `string | string[]` union value. -/
inductive StrOrList where
  | single (s : String)
  | multi (l : List String)
  deriving DecidableEq, Repr

/-- JavaScript truthiness of a `string | string[]` value: an empty string is
falsy, an array (even an empty one) is truthy. -/
def strOrListTruthy : StrOrList → Bool
  | StrOrList.single s => !(s == "")
  | StrOrList.multi _ => true

/-- Normalization `Array.isArray(x) ? x : [x]`. -/
def strOrListToArray : StrOrList → List String
  | StrOrList.single s => [s]
  | StrOrList.multi l => l

/-- The optional filter set accepted by `apiClient.getAlerts`. -/
structure GetAlertsParams where
  status : Option StrOrList
  severity : Option StrOrList
  assigned_to : Option String
  start_date : Option String
  end_date : Option String
  page : Option Nat
  page_size : Option Nat
  deriving DecidableEq, Repr

/-- One `if (params?.x) searchParams.append(key, x)` block for a string
filter: appended only when present and truthy (non-empty). -/
def appendIfTruthyStr (key : String) (v : Option String) :
    List (String × String) :=
  match v with
  | some s => if s == "" then [] else [(key, s)]
  | none => []

/-- One `if (params?.x) searchParams.append(key, x.toString())` block for a
numeric filter: appended only when present and truthy (non-zero). -/
def appendIfTruthyNat (key : String) (v : Option Nat) :
    List (String × String) :=
  match v with
  | some n => if n == 0 then [] else [(key, toString n)]
  | none => []

/-- The `status`/`severity` block: when the value is truthy, normalize it to
an array and append one pair per element. -/
def appendStatusLike (key : String) (v : Option StrOrList) :
    List (String × String) :=
  match v with
  | some sv =>
    if strOrListTruthy sv then (strOrListToArray sv).map (fun s => (key, s))
    else []
  | none => []

/-- Embedding of `apiClient.getAlerts`: the query-parameter list, in append order. -/
def getAlertsQuery (p : GetAlertsParams) : List (String × String) :=
  appendStatusLike "status" p.status ++
  appendStatusLike "severity" p.severity ++
  appendIfTruthyStr "assigned_to" p.assigned_to ++
  appendIfTruthyStr "start_date" p.start_date ++
  appendIfTruthyStr "end_date" p.end_date ++
  appendIfTruthyNat "page" p.page ++
  appendIfTruthyNat "page_size" p.page_size

/-- The values carried by query pairs with the given key. -/
def keyValues (key : String) (l : List (String × String)) : List String :=
  (l.filter (fun kv => kv.fst == key)).map Prod.snd

/-- The `status`/`severity` values the caller requested, after JavaScript
truthiness: a single non-empty string is one value, a single empty string is
dropped, an array contributes each element. -/
def providedValues : Option StrOrList → List String
  | none => []
  | some (StrOrList.single s) => if s == "" then [] else [s]
  | some (StrOrList.multi l) => l

/-- A provided single-string filter survives truthiness iff non-empty. -/
def truthyStrValue : Option String → List String
  | some s => if s == "" then [] else [s]
  | none => []

/-- A provided numeric filter survives truthiness iff non-zero. -/
def truthyNatValue : Option Nat → List String
  | some n => if n == 0 then [] else [toString n]
  | none => []

/-! ## AlertNotificationListener (`alert-notification-listener.tsx`)

The toast effect runs whenever the hook hands over a batch of new alerts:
it filters out ids already recorded as notified, shows a toast for the
first five of the remainder (recording each shown id), shows one summary
toast when more than five were pending, and clears the batch. The notified
set (a `Set` backed by `localStorage`) is embedded as a list of ids. -/

/-- The outcome of one run of the listener's toast effect. -/
structure ListenerResult where
  notified : List String
  toasted : List Alert
  summary : Option Nat
  remaining : List Alert
  deriving DecidableEq, Repr

/-- One run of the toast effect over the current batch `newAlerts`, given the
recorded notified ids: mirrors the `useEffect` body, including the early
return on an empty batch. -/
def processNewAlerts (notified : List String) (newAlerts : List Alert) :
    ListenerResult :=
  if newAlerts.isEmpty then
    { notified := notified, toasted := [], summary := none,
      remaining := newAlerts }
  else
    let unnotifiedAlerts := newAlerts.filter (fun a => !(notified.contains a.id))
    let alertsToShow := unnotifiedAlerts.take 5
    { notified := notified ++ alertsToShow.map (fun a => a.id)
      toasted := alertsToShow
      summary :=
        if unnotifiedAlerts.length > 5 then some (unnotifiedAlerts.length - 5)
        else none
      remaining := [] }

/-- All individual-toast ids produced across a sequence of polling cycles,
threading the recorded notified ids from one cycle to the next. -/
def runListener (notified : List String) : List (List Alert) → List String
  | [] => []
  | b :: bs =>
    let r := processNewAlerts notified b
    r.toasted.map (fun a => a.id) ++ runListener r.notified bs

/-! ## useAlerts (`useAlerts.ts`)

`fetchAlerts` is embedded as a state transition on the hook's React state
plus its refs, applied to the outcome of one `apiClient.getAlerts` call. -/

/-- The hook state: `alerts`, `total`, `loading`, `error`, `newAlerts`
(React state) plus `previousAlertIdsRef` and `isFirstFetchRef`. -/
structure UseAlertsState where
  alerts : List Alert
  total : Nat
  loading : Bool
  error : Option String
  newAlerts : List Alert
  previousAlertIds : List String
  isFirstFetch : Bool
  deriving DecidableEq, Repr

/-- One run of `fetchAlerts` on the outcome of the API call: a thrown
`ApiError` only records the error message and stops loading; a successful
response detects new alerts against the previous fetch's ids (skipped on the
first fetch), prepends them to `newAlerts`, and replaces `alerts`, `total`
and the previous-ids ref. -/
def fetchAlerts (st : UseAlertsState) (result : Except String AlertsResponse) :
    UseAlertsState :=
  match result with
  | Except.error e => { st with error := some e, loading := false }
  | Except.ok response =>
    let fetchedAlerts := response.alerts
    let currentAlertIds := fetchedAlerts.map (fun a => a.id)
    let newAlerts' :=
      if st.isFirstFetch then st.newAlerts
      else
        let newOnes :=
          fetchedAlerts.filter (fun a => !(st.previousAlertIds.contains a.id))
        if newOnes.length > 0 then newOnes ++ st.newAlerts else st.newAlerts
    { st with
      newAlerts := newAlerts'
      previousAlertIds := currentAlertIds
      isFirstFetch := false
      alerts := fetchedAlerts
      total := response.total
      error := none
      loading := false }

/-- A minimal alert used by concrete listener and hook runs. -/
def mkAlert (i : String) : Alert :=
  { id := i, title := "t", description := "d",
    severity := AlertSeverity.low, status := AlertStatus.created,
    escalation_count := 0 }

/-! ## handleResponse (`api-client.ts`)

`handleResponse` parses the response body and, for a non-ok response,
builds an `ApiError` whose message is selected from the body's `detail` or
`message` members. JSON values are embedded as an inductive. -/

/-- A parsed JSON value. -/
inductive Json where
  | null
  | bool (b : Bool)
  | num (n : Int)
  | str (s : String)
  | arr (items : List Json)
  | obj (fields : List (String × Json))

/-- Escaping of `JSON.stringify` for the characters that need it here. -/
def escapeJsonString (s : String) : String :=
  s.data.foldl
    (fun acc c =>
      acc ++ (if c = '\"' then "\\\"" else if c = '\\' then "\\\\"
              else String.mk [c]))
    ""

mutual

/-- Serialization `JSON.stringify` on a JSON value. -/
def stringifyJson : Json → String
  | Json.null => "null"
  | Json.bool true => "true"
  | Json.bool false => "false"
  | Json.num n => toString n
  | Json.str s => "\"" ++ escapeJsonString s ++ "\""
  | Json.arr items => "[" ++ stringifyArr items ++ "]"
  | Json.obj fields => "\x7b" ++ stringifyObj fields ++ "\x7d"

/-- Comma-separated serialization of an array's items. -/
def stringifyArr : List Json → String
  | [] => ""
  | [j] => stringifyJson j
  | j :: rest => stringifyJson j ++ "," ++ stringifyArr rest

/-- Comma-separated serialization of an object's fields. -/
def stringifyObj : List (String × Json) → String
  | [] => ""
  | [(k, v)] => "\"" ++ escapeJsonString k ++ "\":" ++ stringifyJson v
  | (k, v) :: rest =>
    "\"" ++ escapeJsonString k ++ "\":" ++ stringifyJson v ++ "," ++
      stringifyObj rest

end

/-- JavaScript property access `x.k` on a parsed JSON value: a member of an
object, `undefined` (`none`) otherwise. -/
def jsonLookup (j : Json) (k : String) : Option Json :=
  match j with
  | Json.obj fields => fields.lookup k
  | _ => none

/-- A `fetch` response as `handleResponse` sees it: `ok` flag, HTTP status,
and the result of parsing the body as JSON (`none` when unparseable; on the
error path `.catch(() => (\x7b\x7d))` turns that into an empty object). -/
structure HttpResponse where
  ok : Bool
  status : Nat
  jsonBody : Option Json

/-- The `error` object of the non-ok path:
`await response.json().catch(() => (\x7b\x7d))`. -/
def errorBody (r : HttpResponse) : Json := r.jsonBody.getD (Json.obj [])

/-- The `ApiError` thrown by `handleResponse`. -/
structure ApiError where
  message : String
  status : Nat
  data : Json

/-- The message-selection chain of `handleResponse`, mirroring the
JavaScript `typeof` tests in order: a string `detail` wins, then a string
`message`, then a truthy object-typed `detail` is stringified, else the
default text. -/
def errorMessage (err : Json) : String :=
  match jsonLookup err "detail", jsonLookup err "message" with
  | some (Json.str s), _ => s
  | _, some (Json.str s) => s
  | some (Json.obj f), _ => stringifyJson (Json.obj f)
  | some (Json.arr l), _ => stringifyJson (Json.arr l)
  | _, _ => "API request failed"

/-- The body's `detail` member when it is a string. -/
def detailStr (err : Json) : Option String :=
  match jsonLookup err "detail" with
  | some (Json.str s) => some s
  | _ => none

/-- The body's `message` member when it is a string. -/
def messageStr (err : Json) : Option String :=
  match jsonLookup err "message" with
  | some (Json.str s) => some s
  | _ => none

/-- The body's `detail` member when it is a structured (object- or
array-typed, non-null, hence truthy) value. -/
def structuredDetail (err : Json) : Option Json :=
  match jsonLookup err "detail" with
  | some (Json.obj f) => some (Json.obj f)
  | some (Json.arr l) => some (Json.arr l)
  | _ => none

/-- The rejection message as the spec words it: the body's `detail` string
if present, else its `message` string, else the JSON serialization of a
structured `detail`, else the default text. -/
def specRejectionMessage (err : Json) : String :=
  match detailStr err with
  | some s => s
  | none =>
    match messageStr err with
    | some s => s
    | none =>
      match structuredDetail err with
      | some d => stringifyJson d
      | none => "API request failed"

/-- The observable outcome of `handleResponse`: the parsed body, a thrown
`ApiError`, or the `SyntaxError` of `response.json()` on an ok response
whose body is unparseable. -/
inductive FetchResult where
  | success (body : Json)
  | failure (e : ApiError)
  | parseFailed

/-- Embedding of `handleResponse`. -/
def handleResponse (r : HttpResponse) : FetchResult :=
  if r.ok then
    match r.jsonBody with
    | some j => FetchResult.success j
    | none => FetchResult.parseFailed
  else
    FetchResult.failure
      { message := errorMessage (errorBody r), status := r.status,
        data := errorBody r }

/-! ## Page gating (`alerts/page.tsx` and `alerts/[alertId]/page.tsx`) -/

structure SessionUser where
  role : String
  email : String
  deriving DecidableEq, Repr

structure Session where
  user : SessionUser
  deriving DecidableEq, Repr

/-- The outcome of rendering a server page: a redirect, the actual alerts
content (which is what hosts the alert command actions), or the
staff-profile-not-found error screen of the detail page. -/
inductive PageResult where
  | redirect (target : String)
  | content
  | staffProfileNotFound
  deriving DecidableEq, Repr

/-- Embedding of `AlertsPage`: no session redirects to `/auth`; a session whose role is
not SUPER_ADMIN redirects to `/dashboard/profile`; otherwise the alerts
content is rendered. -/
def alertsPage (session : Option Session) : PageResult :=
  match session with
  | none => PageResult.redirect "/auth"
  | some s =>
    if s.user.role ≠ "SUPER_ADMIN" then PageResult.redirect "/dashboard/profile"
    else PageResult.content

/-- Embedding of `AlertDetailPage`: the same session and role gate, then the staff-id
lookup by email; a user without a staff profile gets the error screen and no
alert actions. -/
def alertDetailPage (session : Option Session) (staffLookup : Option String) :
    PageResult :=
  match session with
  | none => PageResult.redirect "/auth"
  | some s =>
    if s.user.role ≠ "SUPER_ADMIN" then PageResult.redirect "/dashboard/profile"
    else
      match staffLookup with
      | none => PageResult.staffProfileNotFound
      | some _ => PageResult.content

end Fazri

namespace Fazri

/-! ## Theorems for claims C2, C3, C5 -/

/-- Claim C2 (confirmed): a resolve request whose notes are empty after
trimming is rejected client-side: `handleResolve` issues no `resolveAlert`
API call (so nothing is persisted and the alert's status is unchanged), and
the Resolve button is disabled while the notes field is blank. -/
theorem resolve_empty_notes_rejected
    (alertId staffId : String) (t : ResolutionType) (notes : String)
    (h : jsTrim notes = "") :
    handleResolve alertId staffId t notes = none ∧
    resolveButtonDisabled false notes = true ∧
    resolveButtonDisabled true notes = true := by
  refine ⟨?_, ?_, ?_⟩
  · simp [handleResolve, h]
  · simp [resolveButtonDisabled, h]
  · simp [resolveButtonDisabled]

/-- Witness for C2 at blank (whitespace-only) notes. -/
theorem resolve_empty_notes_rejected_witness :
    handleResolve "a1" "s1" ResolutionType.resolved "   " = none ∧
    resolveButtonDisabled false "   " = true ∧
    resolveButtonDisabled true "   " = true :=
  resolve_empty_notes_rejected "a1" "s1" ResolutionType.resolved "   " (by decide)

/-- Claim C3 (confirmed): the dialog offers exactly the resolution types
resolved, false_alarm and no_action_required, defaulting to resolved, and
every resolve call it issues carries the selected type together with the
resolution notes in the request body; the type sent is always drawn from
that three-element set. -/
theorem resolve_dialog_resolution_types :
    RESOLUTION_TYPES.map Prod.fst =
      [ResolutionType.resolved, ResolutionType.false_alarm,
       ResolutionType.no_action_required] ∧
    defaultResolutionType = ResolutionType.resolved ∧
    ∀ (alertId staffId : String) (t : ResolutionType) (notes : String)
      (req : ApiRequest),
      t ∈ RESOLUTION_TYPES.map Prod.fst →
      handleResolve alertId staffId t notes = some req →
      req.body = [("resolution_type", resolutionTypeValue t),
                  ("resolution_notes", notes)] ∧
      resolutionTypeValue t ∈ ["resolved", "false_alarm", "no_action_required"] := by
  refine ⟨rfl, rfl, ?_⟩
  intro alertId staffId t notes req ht hreq
  unfold handleResolve at hreq
  by_cases hn : jsTrim notes = ""
  · simp [hn] at hreq
  · simp only [hn, if_false, Option.some.injEq] at hreq
    subst hreq
    refine ⟨rfl, ?_⟩
    revert ht
    cases t <;> decide

/-- Witness for C3 at a concrete resolve call. -/
theorem resolve_dialog_resolution_types_witness :
    (resolveAlert "a1" "s1" "false_alarm" "done").body =
      [("resolution_type", "false_alarm"), ("resolution_notes", "done")] ∧
    "false_alarm" ∈ ["resolved", "false_alarm", "no_action_required"] := by
  have h := resolve_dialog_resolution_types.2.2 "a1" "s1"
    ResolutionType.false_alarm "done"
    (resolveAlert "a1" "s1" "false_alarm" "done") (by decide) (by decide)
  exact h

/-- Claim C5 (confirmed): `handleEscalate` issues an escalate call only when
a supervisor is selected and the reason is non-blank after trimming, and the
issued call carries both `escalate_to` and `reason` as query parameters of
the escalate endpoint. -/
theorem escalate_requires_target_and_reason
    (alertId selectedSupervisor reason : String) :
    (selectedSupervisor = "" →
       handleEscalate alertId selectedSupervisor reason = none) ∧
    (jsTrim reason = "" →
       handleEscalate alertId selectedSupervisor reason = none) ∧
    (∀ req, handleEscalate alertId selectedSupervisor reason = some req →
       selectedSupervisor ≠ "" ∧ jsTrim reason ≠ "" ∧
       req.query = [("escalate_to", selectedSupervisor), ("reason", reason)] ∧
       req.path = "/api/v1/alerts/" ++ alertId ++ "/escalate") := by
  refine ⟨?_, ?_, ?_⟩
  · intro h; simp [handleEscalate, h]
  · intro h; simp [handleEscalate, h]
  · intro req hreq
    unfold handleEscalate at hreq
    by_cases hs : selectedSupervisor = ""
    · simp [hs] at hreq
    · by_cases hr : jsTrim reason = ""
      · simp [hs, hr] at hreq
      · simp only [hs, hr, if_false, Option.some.injEq] at hreq
        subst hreq
        exact ⟨hs, hr, rfl, rfl⟩

/-- Witness for C5 at a concrete escalation. -/
theorem escalate_requires_target_and_reason_witness :
    "sup-1" ≠ "" ∧ (jsTrim "needs help" ≠ "") ∧
    (escalateAlert "a1" "sup-1" "needs help").query =
      [("escalate_to", "sup-1"), ("reason", "needs help")] ∧
    (escalateAlert "a1" "sup-1" "needs help").path = "/api/v1/alerts/" ++ "a1" ++ "/escalate" :=
  (escalate_requires_target_and_reason "a1" "sup-1" "needs help").2.2
    (escalateAlert "a1" "sup-1" "needs help") (by decide)

/-! ## Claim C1: AlertActions versus the §4.1 transition graph

The claim states that each action button is offered only when the
corresponding edge is valid from the alert's current status. The code
contradicts this: Resolve and Escalate are rendered for every non-resolved
status, and Acknowledge also from `created` and `escalated`. -/

/-- Counterexample for C1: from status `created` the component offers
Resolve, Escalate and Acknowledge, though the §4.1 graph admits none of
those edges from `created` (and `escalated→acknowledged` is also not an
edge). -/
theorem alertActions_offers_invalid_edges :
    offersResolve AlertStatus.created = true ∧
    specValidEdge AlertStatus.created AlertStatus.resolved = false ∧
    offersEscalate AlertStatus.created = true ∧
    specValidEdge AlertStatus.created AlertStatus.escalated = false ∧
    offersAcknowledge AlertStatus.escalated = true ∧
    specValidEdge AlertStatus.escalated AlertStatus.acknowledged = false := by
  decide

/-- Claim C1 (amended): the actions AlertActions offers are characterized
purely by coarse status flags, not by the §4.1 graph: Acknowledge is offered
exactly from created, assigned and escalated; Start Investigation exactly
from acknowledged (which is a valid edge); Resolve and Escalate from every
non-resolved status. Invalid edges are therefore requestable from the UI and
their rejection is left to the backend. -/
theorem alertActions_offer_characterization (s : AlertStatus) :
    offersAcknowledge s =
      (s == AlertStatus.created || s == AlertStatus.assigned ||
       s == AlertStatus.escalated) ∧
    offersStartInvestigation s = (s == AlertStatus.acknowledged) ∧
    (offersStartInvestigation s = true →
       specValidEdge s AlertStatus.investigating = true) ∧
    offersResolve s = !(s == AlertStatus.resolved) ∧
    offersEscalate s = !(s == AlertStatus.resolved) := by
  cases s <;> exact ⟨rfl, rfl, fun h => by first | rfl | exact absurd h (by decide), rfl, rfl⟩

/-- Witness for C1's amended theorem: at status `acknowledged` the offered
Start Investigation action is a valid edge. -/
theorem alertActions_offer_characterization_witness :
    specValidEdge AlertStatus.acknowledged AlertStatus.investigating = true :=
  (alertActions_offer_characterization AlertStatus.acknowledged).2.2.1 (by decide)

/-! ## Claim C4: getAlerts query parameters -/

/-- Each truthiness-guarded string block equals the map form over its
surviving values. -/
theorem appendIfTruthyStr_eq (key : String) (v : Option String) :
    appendIfTruthyStr key v = (truthyStrValue v).map (fun s => (key, s)) := by
  cases v with
  | none => rfl
  | some s =>
    simp only [appendIfTruthyStr, truthyStrValue]
    cases h : (s == "") <;> simp

/-- Each truthiness-guarded numeric block equals the map form over its
surviving values. -/
theorem appendIfTruthyNat_eq (key : String) (v : Option Nat) :
    appendIfTruthyNat key v = (truthyNatValue v).map (fun s => (key, s)) := by
  cases v with
  | none => rfl
  | some n =>
    simp only [appendIfTruthyNat, truthyNatValue]
    cases h : (n == 0) <;> simp

/-- The `status`/`severity` block equals the map form over the requested
values that survive truthiness. -/
theorem appendStatusLike_eq (key : String) (v : Option StrOrList) :
    appendStatusLike key v = (providedValues v).map (fun s => (key, s)) := by
  cases v with
  | none => rfl
  | some sv =>
    cases sv with
    | single s =>
      simp only [appendStatusLike, providedValues, strOrListTruthy,
        strOrListToArray]
      cases h : (s == "") <;> simp
    | multi l =>
      simp [appendStatusLike, providedValues, strOrListTruthy, strOrListToArray]

/-- Selection `keyValues` distributes over append. -/
theorem keyValues_append (key : String) (l₁ l₂ : List (String × String)) :
    keyValues key (l₁ ++ l₂) = keyValues key l₁ ++ keyValues key l₂ := by
  simp [keyValues, List.filter_append]

/-- Selecting a key from a block keyed by `k` returns every value when the
keys match and nothing otherwise. -/
theorem keyValues_map (key k : String) (l : List String) :
    keyValues key (l.map (fun s => (k, s))) =
      if (k == key) = true then l else [] := by
  induction l with
  | nil => simp [keyValues]
  | cons x xs ih =>
    simp only [List.map_cons, keyValues, List.filter_cons] at ih ⊢
    cases h : (k == key) <;> simp [h] at ih ⊢ <;> exact ih

/-- Every pair of a block keyed by `k` has a key drawn from `keys` as soon as
`k` is. -/
theorem all_keys_map (keys : List String) (k : String) (l : List String)
    (h : keys.contains k = true) :
    ((l.map (fun s => (k, s))).all (fun kv => keys.contains kv.fst)) = true := by
  induction l with
  | nil => rfl
  | cons x xs ih =>
    simp only [List.map_cons, List.all_cons, h, Bool.true_and]
    exact ih

/-- Counterexample for C4: the filter `page := 0` is provided, yet JavaScript
truthiness drops it, so the request carries no `page` parameter at all. -/
theorem getAlerts_page_zero_dropped :
    (GetAlertsParams.mk none none none none none (some 0) none).page = some 0 ∧
    getAlertsQuery (GetAlertsParams.mk none none none none none (some 0) none)
      = [] := by
  decide

/-- Claim C4 (amended): `getAlerts` queries the list-alerts endpoint with
exactly the provided filters after JavaScript truthiness: one `status`
(resp. `severity`) parameter per requested value, where a single empty
string is dropped; `assigned_to`, `start_date` and `end_date` included
exactly when provided as a non-empty string; `page` and `page_size` exactly
when provided non-zero; and no other parameter ever appears. -/
theorem getAlerts_query_characterization (p : GetAlertsParams) :
    keyValues "status" (getAlertsQuery p) = providedValues p.status ∧
    keyValues "severity" (getAlertsQuery p) = providedValues p.severity ∧
    keyValues "assigned_to" (getAlertsQuery p) = truthyStrValue p.assigned_to ∧
    keyValues "start_date" (getAlertsQuery p) = truthyStrValue p.start_date ∧
    keyValues "end_date" (getAlertsQuery p) = truthyStrValue p.end_date ∧
    keyValues "page" (getAlertsQuery p) = truthyNatValue p.page ∧
    keyValues "page_size" (getAlertsQuery p) = truthyNatValue p.page_size ∧
    (getAlertsQuery p).all
      (fun kv => ["status", "severity", "assigned_to", "start_date",
                  "end_date", "page", "page_size"].contains kv.fst) = true := by
  have hq : getAlertsQuery p =
      (providedValues p.status).map (fun s => ("status", s)) ++
      (providedValues p.severity).map (fun s => ("severity", s)) ++
      (truthyStrValue p.assigned_to).map (fun s => ("assigned_to", s)) ++
      (truthyStrValue p.start_date).map (fun s => ("start_date", s)) ++
      (truthyStrValue p.end_date).map (fun s => ("end_date", s)) ++
      (truthyNatValue p.page).map (fun s => ("page", s)) ++
      (truthyNatValue p.page_size).map (fun s => ("page_size", s)) := by
    simp [getAlertsQuery, appendStatusLike_eq, appendIfTruthyStr_eq,
      appendIfTruthyNat_eq]
  rw [hq]
  refine ⟨?_, ?_, ?_, ?_, ?_, ?_, ?_, ?_⟩
  all_goals first
    | (simp only [keyValues_append, keyValues_map]
       simp)
    | (simp only [List.all_append, Bool.and_eq_true]
       refine ⟨⟨⟨⟨⟨⟨?_, ?_⟩, ?_⟩, ?_⟩, ?_⟩, ?_⟩, ?_⟩ <;>
         exact all_keys_map _ _ _ (by decide))

/-! ## Claim C6: page gating of the alert command actions -/

/-- Claim C6 (confirmed): the alerts pages render the alert command content
only for an authenticated session whose role is SUPER_ADMIN; a missing
session is redirected to `/auth` and any other role to
`/dashboard/profile`. -/
theorem alert_pages_auth (session : Option Session)
    (staffLookup : Option String) :
    (alertsPage session = PageResult.content →
       ∃ s, session = some s ∧ s.user.role = "SUPER_ADMIN") ∧
    (alertDetailPage session staffLookup = PageResult.content →
       ∃ s, session = some s ∧ s.user.role = "SUPER_ADMIN") ∧
    (session = none →
       alertsPage session = PageResult.redirect "/auth" ∧
       alertDetailPage session staffLookup = PageResult.redirect "/auth") ∧
    (∀ s, session = some s → s.user.role ≠ "SUPER_ADMIN" →
       alertsPage session = PageResult.redirect "/dashboard/profile" ∧
       alertDetailPage session staffLookup =
         PageResult.redirect "/dashboard/profile") := by
  cases session with
  | none =>
    refine ⟨?_, ?_, ?_, ?_⟩
    · intro h; simp [alertsPage] at h
    · intro h; simp [alertDetailPage] at h
    · intro _; exact ⟨rfl, rfl⟩
    · intro s hs; simp at hs
  | some s =>
    by_cases hr : s.user.role = "SUPER_ADMIN"
    · refine ⟨?_, ?_, ?_, ?_⟩
      · intro _; exact ⟨s, rfl, hr⟩
      · intro _; exact ⟨s, rfl, hr⟩
      · intro h; simp at h
      · intro x hx hrole
        rw [Option.some_inj] at hx
        subst hx
        exact absurd hr hrole
    · refine ⟨?_, ?_, ?_, ?_⟩
      · intro h; simp [alertsPage, hr] at h
      · intro h; simp [alertDetailPage, hr] at h
      · intro h; simp at h
      · intro x hx hrole
        rw [Option.some_inj] at hx
        subst hx
        exact ⟨by simp [alertsPage, hr], by simp [alertDetailPage, hr]⟩

/-- Witness for C6: a SUPER_ADMIN session reaches the content, and the
theorem recovers the authenticated admin session from that fact. -/
theorem alert_pages_auth_witness :
    ∃ s, some (Session.mk (SessionUser.mk "SUPER_ADMIN" "admin@fazri.io"))
        = some s ∧ s.user.role = "SUPER_ADMIN" :=
  (alert_pages_auth
      (some (Session.mk (SessionUser.mk "SUPER_ADMIN" "admin@fazri.io")))
      (some "staff-1")).1 (by decide)

/-! ## Claims C7 and C9: the notification listener -/

/-- Every toasted alert comes from the batch and was not yet recorded as
notified. -/
theorem mem_toasted (notified : List String) (b : List Alert) (a : Alert)
    (ha : a ∈ (processNewAlerts notified b).toasted) :
    a ∈ b ∧ notified.contains a.id = false := by
  unfold processNewAlerts at ha
  by_cases hb : b.isEmpty
  · simp [hb] at ha
  · simp only [hb, if_false] at ha
    have hmem := List.take_subset 5 _ ha
    have := List.mem_filter.mp hmem
    exact ⟨this.1, by simpa using this.2⟩

/-- The recorded notified ids only grow. -/
theorem notified_mono (notified : List String) (b : List Alert) (x : String)
    (hx : x ∈ notified) : x ∈ (processNewAlerts notified b).notified := by
  unfold processNewAlerts
  by_cases hb : b.isEmpty
  · simpa [hb] using hx
  · simp only [hb, if_false]
    exact List.mem_append_left _ hx

/-- Every toasted id is recorded as notified afterwards. -/
theorem toasted_id_recorded (notified : List String) (b : List Alert)
    (x : String) (hx : x ∈ (processNewAlerts notified b).toasted.map (fun a => a.id)) :
    x ∈ (processNewAlerts notified b).notified := by
  unfold processNewAlerts at hx ⊢
  by_cases hb : b.isEmpty
  · simp [hb] at hx
  · simp only [hb, if_false] at hx ⊢
    exact List.mem_append_right _ hx

/-- A batch without duplicate ids yields toasted ids without duplicates. -/
theorem toasted_ids_nodup (notified : List String) (b : List Alert)
    (hb : (b.map (fun a => a.id)).Nodup) :
    ((processNewAlerts notified b).toasted.map (fun a => a.id)).Nodup := by
  unfold processNewAlerts
  by_cases he : b.isEmpty
  · simp [he]
  · simp only [he, if_false]
    refine hb.sublist (List.Sublist.map _ ?_)
    exact ((List.take_sublist 5 _).trans (List.filter_sublist b))

/-- Claim C7 (confirmed): across any run of polling cycles the listener
toasts each alert id at most once, and an id already recorded as notified
(for example restored from localStorage) is never toasted at all — a
re-delivered alert in a later cycle produces no second toast. Each cycle's
batch carries distinct alert ids, one entry per alert returned by the
fetch. -/
theorem listener_dedup (notified : List String) (batches : List (List Alert))
    (hnd : ∀ b ∈ batches, (b.map (fun a => a.id)).Nodup) (x : String) :
    (runListener notified batches).count x ≤ 1 ∧
    (x ∈ notified → (runListener notified batches).count x = 0) := by
  induction batches generalizing notified with
  | nil => simp [runListener]
  | cons b bs ih =>
    have hb : (b.map (fun a => a.id)).Nodup := hnd b (List.mem_cons_self b bs)
    have hbs : ∀ y ∈ bs, (y.map (fun a => a.id)).Nodup :=
      fun y hy => hnd y (List.mem_cons_of_mem b hy)
    have ihr := ih (processNewAlerts notified b).notified hbs
    have hrun : runListener notified (b :: bs) =
        (processNewAlerts notified b).toasted.map (fun a => a.id) ++
          runListener (processNewAlerts notified b).notified bs := rfl
    have hnot : x ∈ notified →
        ((processNewAlerts notified b).toasted.map (fun a => a.id)).count x = 0 := by
      intro hxn
      rw [List.count_eq_zero]
      intro hmem
      obtain ⟨a, ha, haid⟩ := List.mem_map.mp hmem
      have hcf := (mem_toasted notified b a ha).2
      rw [haid] at hcf
      have ht : notified.contains x = true := List.elem_iff.mpr hxn
      rw [ht] at hcf
      exact Bool.true_eq_false.mp hcf
    constructor
    · by_cases hxn : x ∈ notified
      · rw [hrun, List.count_append, hnot hxn,
          ihr.2 (notified_mono notified b x hxn)]
        decide
      · by_cases hxt : x ∈ (processNewAlerts notified b).toasted.map (fun a => a.id)
        · have h1 : ((processNewAlerts notified b).toasted.map (fun a => a.id)).count x ≤ 1 :=
            List.nodup_iff_count_le_one.mp (toasted_ids_nodup notified b hb) x
          have h0 := ihr.2 (toasted_id_recorded notified b x hxt)
          rw [hrun, List.count_append, h0]
          omega
        · rw [hrun, List.count_append, List.count_eq_zero.mpr hxt]
          simpa using ihr.1
    · intro hxn
      rw [hrun, List.count_append, hnot hxn,
        ihr.2 (notified_mono notified b x hxn)]

/-- Witness for C7: with id `a` already recorded, redelivering it (twice,
across two cycles) produces zero toasts for it. -/
theorem listener_dedup_witness :
    (runListener ["a"] [[mkAlert "a", mkAlert "b"], [mkAlert "a", mkAlert "b"]]).count "a" = 0 :=
  (listener_dedup ["a"] [[mkAlert "a", mkAlert "b"], [mkAlert "a", mkAlert "b"]]
    (by decide) "a").2 (by decide)

/-- Claim C9 (confirmed): in one polling cycle the listener toasts the first
five previously-unnotified alerts of the batch (so at most five), emits the
summary toast carrying the count of the remainder exactly when more than
five were pending, and clears the batch. -/
theorem listener_batch_bounds (notified : List String) (batch : List Alert)
    (h : batch ≠ []) :
    (processNewAlerts notified batch).toasted =
      (batch.filter (fun a => !(notified.contains a.id))).take 5 ∧
    (processNewAlerts notified batch).toasted.length =
      min 5 (batch.filter (fun a => !(notified.contains a.id))).length ∧
    (processNewAlerts notified batch).toasted.length ≤ 5 ∧
    (processNewAlerts notified batch).summary =
      (if (batch.filter (fun a => !(notified.contains a.id))).length > 5 then
         some ((batch.filter (fun a => !(notified.contains a.id))).length - 5)
       else none) ∧
    (processNewAlerts notified batch).remaining = [] := by
  have he : batch.isEmpty = false := by simp [List.isEmpty_iff, h]
  have hP : processNewAlerts notified batch =
      { notified := notified ++
          ((batch.filter (fun a => !(notified.contains a.id))).take 5).map
            (fun a => a.id)
        toasted := (batch.filter (fun a => !(notified.contains a.id))).take 5
        summary :=
          if (batch.filter (fun a => !(notified.contains a.id))).length > 5 then
            some ((batch.filter (fun a => !(notified.contains a.id))).length - 5)
          else none
        remaining := [] } := by
    unfold processNewAlerts
    rw [he]
    rfl
  rw [hP]
  exact ⟨rfl, List.length_take 5 _,
    (List.length_take 5 _).le.trans (Nat.min_le_left _ _), rfl, rfl⟩

/-- Witness for C9: seven pending alerts, one of them already notified →
five individual toasts and a summary toast for the single leftover. -/
theorem listener_batch_bounds_witness :
    (processNewAlerts ["a1"]
        [mkAlert "a1", mkAlert "a2", mkAlert "a3", mkAlert "a4",
         mkAlert "a5", mkAlert "a6", mkAlert "a7"]).toasted =
      [mkAlert "a2", mkAlert "a3", mkAlert "a4", mkAlert "a5", mkAlert "a6"] ∧
    (processNewAlerts ["a1"]
        [mkAlert "a1", mkAlert "a2", mkAlert "a3", mkAlert "a4",
         mkAlert "a5", mkAlert "a6", mkAlert "a7"]).summary = some 1 ∧
    (processNewAlerts ["a1"]
        [mkAlert "a1", mkAlert "a2", mkAlert "a3", mkAlert "a4",
         mkAlert "a5", mkAlert "a6", mkAlert "a7"]).remaining = [] := by
  have h := listener_batch_bounds ["a1"]
    [mkAlert "a1", mkAlert "a2", mkAlert "a3", mkAlert "a4",
     mkAlert "a5", mkAlert "a6", mkAlert "a7"] (by decide)
  exact ⟨by rw [h.1]; decide, by rw [h.2.2.2.1]; decide, h.2.2.2.2⟩

/-! ## Claim C10: useAlerts new-alert detection -/

/-- Claim C10 (confirmed): a successful fetch after the first extends
`newAlerts` by exactly the fetched alerts whose ids were absent from the
preceding successful fetch's id set (prepended to the existing batch); the
first fetch never adds to `newAlerts`; a failed fetch leaves both `alerts`
and `newAlerts` unchanged. In addition, a successful fetch replaces the
stored id set with the fetched ids, so the next detection compares against
the immediately preceding fetch. -/
theorem fetchAlerts_spec (st : UseAlertsState) (resp : AlertsResponse)
    (e : String) :
    (st.isFirstFetch = false →
       (fetchAlerts st (Except.ok resp)).newAlerts =
         resp.alerts.filter (fun a => !(st.previousAlertIds.contains a.id)) ++
           st.newAlerts) ∧
    (st.isFirstFetch = true →
       (fetchAlerts st (Except.ok resp)).newAlerts = st.newAlerts) ∧
    ((fetchAlerts st (Except.error e)).alerts = st.alerts ∧
     (fetchAlerts st (Except.error e)).newAlerts = st.newAlerts) ∧
    (fetchAlerts st (Except.ok resp)).alerts = resp.alerts ∧
    (fetchAlerts st (Except.ok resp)).previousAlertIds =
      resp.alerts.map (fun a => a.id) := by
  refine ⟨?_, ?_, ⟨rfl, rfl⟩, rfl, rfl⟩
  · intro h
    show (if st.isFirstFetch then st.newAlerts else _) = _
    rw [h, if_neg (by simp)]
    by_cases hl :
        (resp.alerts.filter (fun a => !(st.previousAlertIds.contains a.id))).length > 0
    · rw [if_pos hl]
    · rw [if_neg hl]
      have hnil :
          resp.alerts.filter (fun a => !(st.previousAlertIds.contains a.id)) = [] :=
        List.length_eq_zero.mp (by omega)
      rw [hnil, List.nil_append]
  · intro h
    show (if st.isFirstFetch then st.newAlerts else _) = _
    rw [h, if_pos rfl]

/-- Witness for C10: a second fetch returning one old and one new alert adds
exactly the new one in front of the pending batch. -/
theorem fetchAlerts_spec_witness :
    (fetchAlerts
        { alerts := [mkAlert "old"], total := 1, loading := false,
          error := none, newAlerts := [mkAlert "pending"],
          previousAlertIds := ["old"], isFirstFetch := false }
        (Except.ok
          { total := 2, alerts := [mkAlert "old", mkAlert "new"],
            page := 1, page_size := 50 })).newAlerts =
      [mkAlert "old", mkAlert "new"].filter
          (fun a => !(["old"].contains a.id)) ++ [mkAlert "pending"] :=
  (fetchAlerts_spec
      { alerts := [mkAlert "old"], total := 1, loading := false,
        error := none, newAlerts := [mkAlert "pending"],
        previousAlertIds := ["old"], isFirstFetch := false }
      { total := 2, alerts := [mkAlert "old", mkAlert "new"],
        page := 1, page_size := 50 } "err").1 rfl

/-! ## Claim C8: handleResponse -/

/-- The message-selection chain of the code coincides with the spec's
priority description for every error body. -/
theorem errorMessage_eq_spec (err : Json) :
    errorMessage err = specRejectionMessage err := by
  unfold errorMessage specRejectionMessage detailStr messageStr structuredDetail
  generalize jsonLookup err "detail" = d
  generalize jsonLookup err "message" = m
  rcases d with _ | d
  · rcases m with _ | m
    · rfl
    · cases m <;> rfl
  · cases d <;> rcases m with _ | m <;> first | rfl | (cases m <;> rfl)

/-- Claim C8 (confirmed): `handleResponse` returns the parsed JSON body of
an ok response, and for a non-ok response throws an `ApiError` carrying the
HTTP status, the parsed error body, and a message chosen as the body's
`detail` string if present, else its `message` string, else the JSON
serialization of a structured `detail`, else the default text — so every
rejection carries a structured, renderable reason. -/
theorem handleResponse_spec (r : HttpResponse) (j : Json) :
    (r.ok = true → r.jsonBody = some j →
       handleResponse r = FetchResult.success j) ∧
    (r.ok = false →
       handleResponse r =
         FetchResult.failure
           { message := specRejectionMessage (errorBody r),
             status := r.status, data := errorBody r }) := by
  constructor
  · intro hok hbody
    simp [handleResponse, hok, hbody]
  · intro hok
    simp [handleResponse, hok, errorMessage_eq_spec]

/-- Witness for C8: a 422 response whose body carries a string `detail`
throws an `ApiError` with that detail as its message. -/
theorem handleResponse_spec_witness :
    handleResponse
        { ok := false, status := 422,
          jsonBody := some (Json.obj [("detail", Json.str "bad input")]) } =
      FetchResult.failure
        { message := "bad input", status := 422,
          data := Json.obj [("detail", Json.str "bad input")] } :=
  (handleResponse_spec
      { ok := false, status := 422,
        jsonBody := some (Json.obj [("detail", Json.str "bad input")]) }
      Json.null).2 rfl

end Fazri
